import Mathlib

/-!
Shallow embedding of the freeCodeCamp settings routes (Fastify plugin
`settingRoutes`), of the locale jest test generation, and of the
translation-annotation markdown formatting configuration, together with
theorems settling the specification claims about them.

Handlers are modelled as pure functions from the request body, the stored
user record and explicit environment flags (whether the ORM `update` call
throws, whether schema validation failed, ...) to a `HandlerResult`
containing the HTTP status, the flash `message` and `type` strings, the
resulting user record and the trace of ORM operations issued.  JavaScript
`toLowerCase`/`trim` are modelled by `jsToLower`/`jsTrim`
(ASCII model).
-/

namespace FCC

/-- The ten boolean profile visibility flags (Prisma `profileUI` shape). -/
structure ProfileUI where
  isLocked : Bool
  showAbout : Bool
  showCerts : Bool
  showDonation : Bool
  showHeatMap : Bool
  showLocation : Bool
  showName : Bool
  showPoints : Bool
  showPortfolio : Bool
  showTimeLine : Bool
deriving Repr, DecidableEq

/-- A normalized portfolio item as written to the data store. -/
structure PortfolioItem where
  id : String
  title : String
  url : String
  description : String
  image : String
deriving Repr, DecidableEq

/-- A portfolio item as it arrives in the request body, every field optional. -/
structure PortfolioItemBody where
  id : Option String
  title : Option String
  url : Option String
  description : Option String
  image : Option String
deriving Repr, DecidableEq

/-- The fields of the stored user record touched by the settings routes. -/
structure User where
  email : String
  username : String
  usernameDisplay : Option String
  about : String
  name : String
  location : String
  picture : String
  profileUI : ProfileUI
  theme : String
  website : String
  twitter : String
  githubProfile : String
  linkedin : String
  keyboardShortcuts : Bool
  sendQuincyEmail : Bool
  isHonest : Bool
  acceptedPrivacyTerms : Bool
  portfolio : List PortfolioItem
deriving Repr, DecidableEq

/-- One ORM call issued by a handler: a read (`findUniqueOrThrow` or
`findFirstOrThrow`), a `count`, or an `update` on the user record. -/
inductive OrmOp where
  | read : OrmOp
  | count : OrmOp
  | update : OrmOp
deriving Repr, DecidableEq

/-- The observable outcome of one handler invocation: HTTP status, flash
message and type, the user record after the call, the trace of ORM
operations issued, and whether `fastify.log.error` was called. -/
structure HandlerResult where
  status : Nat
  message : String
  type : String
  user : User
  ops : List OrmOp
  logged : Bool
deriving Repr, DecidableEq

/-- The catch branch shared verbatim by every settings handler:
log the error, reply 500 with the wrong-updating danger flash,
leaving the stored record unchanged. -/
def catchBranch (user : User) (ops : List OrmOp) : HandlerResult :=
  { status := 500, message := "flash.wrong-updating", type := "danger",
    user := user, ops := ops, logged := true }

/-- The translation lookup keys appearing as literal `message` values in
`settingRoutes`. -/
def fixedMessageKeys : List String :=
  ["flash.wrong-updating", "flash.privacy-updated", "flash.email-valid",
   "flash.updated-themes", "flash.updated-socials", "flash.username-used",
   "flash.username-taken", "flash.username-updated", "flash.updated-about-me",
   "flash.keyboard-shortcut-updated", "flash.subscribe-to-quincy-updated",
   "buttons.accepted-honesty", "flash.portfolio-item-updated"]

/-- Model of JavaScript `String.prototype.toLowerCase` (ASCII): lowercase
every character. -/
def jsToLower (s : String) : String := String.mk (s.data.map Char.toLower)

/-- Model of JavaScript `String.prototype.trim`: drop leading and
trailing whitespace. -/
def jsTrim (s : String) : String :=
  String.mk (((s.data.dropWhile Char.isWhitespace).reverse.dropWhile Char.isWhitespace).reverse)

/-- `updateErrorHandler`: a validation error is answered directly with
400 and the wrong-updating danger flash; any other error is delegated to
`fastify.errorHandler` (modelled as `none`). -/
def updateErrorHandler (isValidationError : Bool) : Option (Nat × String × String) :=
  if isValidationError then some (400, "flash.wrong-updating", "danger") else none

/-- PUT /update-my-profileui handler body. -/
def updateMyProfileUI (body : ProfileUI) (user : User) (ormFails : Bool) :
    HandlerResult :=
  if ormFails then catchBranch user [OrmOp.update]
  else
    { status := 200, message := "flash.privacy-updated", type := "success",
      user := { user with profileUI :=
        { isLocked := body.isLocked, showAbout := body.showAbout,
          showCerts := body.showCerts, showDonation := body.showDonation,
          showHeatMap := body.showHeatMap, showLocation := body.showLocation,
          showName := body.showName, showPoints := body.showPoints,
          showPortfolio := body.showPortfolio, showTimeLine := body.showTimeLine } },
      ops := [OrmOp.update], logged := false }

/-- PUT /update-my-theme handler body. -/
def updateMyTheme (bodyTheme : String) (user : User) (ormFails : Bool) :
    HandlerResult :=
  if ormFails then catchBranch user [OrmOp.update]
  else
    { status := 200, message := "flash.updated-themes", type := "success",
      user := { user with theme := bodyTheme },
      ops := [OrmOp.update], logged := false }

/-- The request body of PUT /update-my-socials. -/
structure SocialsBody where
  website : String
  twitter : String
  githubProfile : String
  linkedin : String
deriving Repr, DecidableEq

/-- PUT /update-my-socials handler body. -/
def updateMySocials (body : SocialsBody) (user : User) (ormFails : Bool) :
    HandlerResult :=
  if ormFails then catchBranch user [OrmOp.update]
  else
    { status := 200, message := "flash.updated-socials", type := "success",
      user := { user with website := body.website, twitter := body.twitter, githubProfile := body.githubProfile, linkedin := body.linkedin },
      ops := [OrmOp.update], logged := false }

/-- PUT /update-my-keyboard-shortcuts handler body. -/
def updateMyKeyboardShortcuts (bodyKS : Bool) (user : User) (ormFails : Bool) :
    HandlerResult :=
  if ormFails then catchBranch user [OrmOp.update]
  else
    { status := 200, message := "flash.keyboard-shortcut-updated", type := "success",
      user := { user with keyboardShortcuts := bodyKS },
      ops := [OrmOp.update], logged := false }

/-- PUT /update-my-quincy-email handler body. -/
def updateMyQuincyEmail (bodySendQuincyEmail : Bool) (user : User) (ormFails : Bool) :
    HandlerResult :=
  if ormFails then catchBranch user [OrmOp.update]
  else
    { status := 200, message := "flash.subscribe-to-quincy-updated", type := "success",
      user := { user with sendQuincyEmail := bodySendQuincyEmail },
      ops := [OrmOp.update], logged := false }

/-- PUT /update-my-honesty handler body. -/
def updateMyHonesty (bodyIsHonest : Bool) (user : User) (ormFails : Bool) :
    HandlerResult :=
  if ormFails then catchBranch user [OrmOp.update]
  else
    { status := 200, message := "buttons.accepted-honesty", type := "success",
      user := { user with isHonest := bodyIsHonest },
      ops := [OrmOp.update], logged := false }

/-- PUT /update-privacy-terms handler body. -/
def updatePrivacyTerms (bodyQuincyEmails : Bool) (user : User) (ormFails : Bool) :
    HandlerResult :=
  if ormFails then catchBranch user [OrmOp.update]
  else
    { status := 200, message := "flash.privacy-updated", type := "success",
      user := { user with acceptedPrivacyTerms := true, sendQuincyEmail := bodyQuincyEmails },
      ops := [OrmOp.update], logged := false }

/-- Normalization performed on each submitted portfolio item: each falsy
field (absent or the empty string) becomes the empty string. -/
def normalizePortfolioItem (it : PortfolioItemBody) : PortfolioItem :=
  { id := it.id.getD "", title := it.title.getD "", url := it.url.getD "",
    description := it.description.getD "", image := it.image.getD "" }

/-- PUT /update-my-portfolio handler body. -/
def updateMyPortfolio (body : List PortfolioItemBody) (user : User) (ormFails : Bool) :
    HandlerResult :=
  if ormFails then catchBranch user [OrmOp.update]
  else
    { status := 200, message := "flash.portfolio-item-updated", type := "success",
      user := { user with portfolio := body.map normalizePortfolioItem },
      ops := [OrmOp.update], logged := false }

/-- The message built in the duplicate-email branch of PUT /update-my-email,
a template literal interpolating the submitted (lowercased) email. -/
def sameEmailMessage (newEmail : String) : String :=
  newEmail ++ " is already associated with this account.\nYou can update a new email address instead."

/-- The message built in the rate-limit branch of PUT /update-my-email,
interpolating the submitted email and the formatted limit time. -/
def limitMessage (newEmail : String) (formattedLimitedTime : String) : String :=
  "\n        We have already sent an email confirmation request to " ++ newEmail ++ ".\n        " ++ formattedLimitedTime

/-- PUT /update-my-email handler body.  `validationError` models
`req.validationError` (the route uses `attachValidation`), `limitPassed`
models `isPast(fiveMinuteLimit)`, and `formattedLimitedTime` the
`Intl.DateTimeFormat` rendering of `fiveMinuteLimit`. -/
def updateMyEmail (validationError : Bool) (bodyEmail : String) (user : User)
    (limitPassed : Bool) (formattedLimitedTime : String) (ormFails : Bool) :
    HandlerResult :=
  if validationError then
    { status := 400, message := "Email format is invalid", type := "danger",
      user := user, ops := [], logged := false }
  else
    let newEmail := jsToLower bodyEmail
    let currentEmailFormated := jsToLower user.email
    if newEmail = currentEmailFormated then
      { status := 400, message := sameEmailMessage newEmail, type := "info",
        user := user, ops := [OrmOp.read], logged := false }
    else if ¬ limitPassed then
      { status := 200, message := limitMessage newEmail formattedLimitedTime,
        type := "info", user := user, ops := [OrmOp.read], logged := false }
    else if ormFails then catchBranch user [OrmOp.read, OrmOp.update]
    else
      { status := 200, message := "flash.email-valid", type := "success",
        user := { user with email := newEmail },
        ops := [OrmOp.read, OrmOp.update], logged := false }

/-- Result of `isValidUsername` from shared/utils/validate (not under the
sources given): a validity flag and an error fragment. -/
structure UsernameValidation where
  valid : Bool
  error : String
deriving Repr, DecidableEq

/-- The external dependencies of PUT /update-my-username: the profanity
check from the no-profanity package, the blocklist from shared config,
`isValidUsername` from shared validate, and the data-store count of users
holding a given username. -/
structure UsernameDeps where
  isProfane : String → Bool
  blocklistedUsernames : List String
  isValidUsername : String → UsernameValidation
  countUsername : String → Nat

/-- PUT /update-my-username handler body.  `validationError` models
`req.validationError` (`some message` when schema validation failed). -/
def updateMyUsername (deps : UsernameDeps) (validationError : Option String)
    (bodyUsername : String) (user : User) (ormFails : Bool) : HandlerResult :=
  let newUsernameDisplay := jsTrim bodyUsername
  let oldUsernameDisplay := user.usernameDisplay.map jsTrim
  let newUsername := jsToLower newUsernameDisplay
  let oldUsername := jsToLower user.username
  let usernameUnchanged :=
    newUsername = oldUsername ∧ some newUsernameDisplay = oldUsernameDisplay
  if usernameUnchanged then
    { status := 400, message := "flash.username-used", type := "info",
      user := user, ops := [OrmOp.read], logged := false }
  else
    match validationError with
    | some msg =>
      { status := 400, message := msg, type := "info",
        user := user, ops := [OrmOp.read], logged := false }
    | none =>
      let validation := deps.isValidUsername newUsername
      if ¬ validation.valid then
        { status := 400,
          message := "Username " ++ newUsername ++ " " ++ validation.error,
          type := "info", user := user, ops := [OrmOp.read], logged := false }
      else
        let isUserNameProfane := deps.isProfane newUsername
        let onBlocklist := deps.blocklistedUsernames.contains newUsername
        let countOps := if newUsername = oldUsername then [] else [OrmOp.count]
        let usernameTaken :=
          if newUsername = oldUsername then false
          else decide (deps.countUsername newUsername ≠ 0)
        if usernameTaken || isUserNameProfane || onBlocklist then
          { status := 400, message := "flash.username-taken", type := "info",
            user := user, ops := [OrmOp.read] ++ countOps, logged := false }
        else if ormFails then
          catchBranch user ([OrmOp.read] ++ countOps ++ [OrmOp.update])
        else
          { status := 200, message := "flash.username-updated", type := "success",
            user := { user with username := newUsername, usernameDisplay := some newUsernameDisplay },
            ops := [OrmOp.read] ++ countOps ++ [OrmOp.update], logged := false }

/-- Model of the WHATWG URL value produced by `new URL(...)`, restricted
to the part the code inspects: the protocol (lowercased scheme plus a
trailing colon). -/
structure ParsedURL where
  protocol : String
  rest : String
deriving Repr, DecidableEq

/-- Whether a character may appear in a URL scheme after the first one. -/
def isSchemeChar (c : Char) : Bool :=
  c.isAlphanum || c = '+' || c = '-' || c = '.'

/-- Split a character list at the first colon, returning the part before
it and the part after it. -/
def splitAtColon : List Char → Option (List Char × List Char)
  | [] => none
  | c :: cs =>
    if c = ':' then some ([], cs)
    else
      match splitAtColon cs with
      | some (sch, rest) => some (c :: sch, rest)
      | none => none

/-- Model of the `new URL(...)` constructor: succeeds when the string
begins with a valid scheme (a letter followed by letters, digits, plus,
minus or dot) terminated by a colon, and fails (throws) otherwise. -/
def parseURL (s : String) : Option ParsedURL :=
  match splitAtColon s.toList with
  | none => none
  | some (sch, rest) =>
    match sch with
    | [] => none
    | c :: cs =>
      if c.isAlpha ∧ cs.all isSchemeChar then
        some { protocol := jsToLower (String.mk (c :: cs)) ++ ":", rest := String.mk rest }
      else none

/-- `isPictureWithProtocol`: false on an absent or falsy (empty) picture,
false when `new URL` throws, and otherwise true exactly when the protocol
is http or https. -/
def isPictureWithProtocol (picture : Option String) : Bool :=
  match picture with
  | none => false
  | some p =>
    if p = "" then false
    else
      match parseURL p with
      | none => false
      | some url => url.protocol = "http:" || url.protocol = "https:"

/-- The request body of PUT /update-my-about. -/
structure AboutBody where
  about : String
  name : String
  location : String
  picture : Option String
deriving Repr, DecidableEq

/-- PUT /update-my-about handler body: always writes about, name and
location; writes picture only when `isPictureWithProtocol` holds of the
submitted picture. -/
def updateMyAbout (body : AboutBody) (user : User) (ormFails : Bool) :
    HandlerResult :=
  let hasProtocol := isPictureWithProtocol body.picture
  if ormFails then catchBranch user [OrmOp.update]
  else
    { status := 200, message := "flash.updated-about-me", type := "success",
      user := { user with about := body.about, name := body.name, location := body.location, picture := if hasProtocol then body.picture.getD user.picture else user.picture },
      ops := [OrmOp.update], logged := false }

/-! Locale jest suite (the `Locale tests:` describe block). -/

/-- One check generated by the locale test suite. -/
inductive LocaleCheck where
  | fileExists (lang : String) (file : String) : LocaleCheck
  | inLangNames (lang : String) : LocaleCheck
  | inLangCodes (lang : String) : LocaleCheck
deriving Repr, DecidableEq

/-- The `filesThatShouldExist` list of the locale test file. -/
def filesThatShouldExist : List String :=
  ["translations.json", "motivation.json", "intro.json", "meta-tags.json", "links.json"]

/-- The checks the `Locale tests:` describe block generates for one
language: one existence test per file of `filesThatShouldExist`, then the
LangNames entry test and the LangCodes entry test. -/
def localeChecksFor (lang : String) : List LocaleCheck :=
  filesThatShouldExist.map (LocaleCheck.fileExists lang) ++
    [LocaleCheck.inLangNames lang, LocaleCheck.inLangCodes lang]

/-- The whole suite: the checks of every language of
`availableLangs.client` (passed in, since config/i18n is external to the
given sources). -/
def localeSuite (clientLangs : List String) : List LocaleCheck :=
  clientLangs.flatMap localeChecksFor

/-- The environment the locale checks run against: the filesystem and the
key lists of the LangNames and LangCodes enums. -/
structure LocaleEnv where
  fileOnDisk : String → String → Bool
  langNamesKeys : List String
  langCodesKeys : List String

/-- Evaluation of one locale check, as the jest test bodies do it: the
enum tests lowercase every enum key and ask whether the language string
is among the results. -/
def runLocaleCheck (env : LocaleEnv) : LocaleCheck → Bool
  | LocaleCheck.fileExists lang file => env.fileOnDisk lang file
  | LocaleCheck.inLangNames lang => (env.langNamesKeys.map jsToLower).contains lang
  | LocaleCheck.inLangCodes lang => (env.langCodesKeys.map jsToLower).contains lang

/-! Translation-annotation formatter (tools/formatter/translation-annotation). -/

/-- The notranslate opening tag. -/
def notranslateStart : String := "<notranslate>"

/-- The notranslate closing tag. -/
def notranslateEnd : String := "</notranslate>"

/-- Model of the default `inlineCode` handler of mdast-util-to-markdown:
the value between backtick fences. -/
def defaultInlineCode (value : String) : String := "`" ++ value ++ "`"

/-- `wrapInlineCode`: the default inlineCode rendering wrapped in the
notranslate tags. -/
def wrapInlineCode (value : String) : String :=
  notranslateStart ++ defaultInlineCode value ++ notranslateEnd

mutual
/-- Model of an mdast node (the kinds relevant to stringification). -/
inductive MdNode where
  | text (value : String) : MdNode
  | inlineCode (value : String) : MdNode
  | codeBlock (lang : String) (value : String) : MdNode
  | emphasis (children : MdNodeList) : MdNode
  | strong (children : MdNodeList) : MdNode
  | paragraph (children : MdNodeList) : MdNode
/-- A list of mdast child nodes. -/
inductive MdNodeList where
  | nil : MdNodeList
  | cons (head : MdNode) (tail : MdNodeList) : MdNodeList
end

/-- The remark-stringify options the formatter passes: the fences and
emphasis settings plus the optional custom inlineCode handler. -/
structure StringifyOptions where
  fences : Bool
  emphasis : Char
  inlineCodeHandler : Option (String → String)

/-- The plugin chain `baseProcessor` installs before stringification. -/
def baseProcessorPlugins : List String := ["remark-parse", "table-and-strikethrough"]

/-- A processor configuration: its parser plugin chain and its stringify
options. -/
structure ProcessorConfig where
  plugins : List String
  options : StringifyOptions

/-- The processor `annotateCode` builds: the base plugins and
remark-stringify with fences, star emphasis and the custom inlineCode
handler. -/
def annotateCodeConfig : ProcessorConfig :=
  { plugins := baseProcessorPlugins,
    options := { fences := true, emphasis := '*', inlineCodeHandler := some wrapInlineCode } }

/-- The processor `stringifyMd` builds: the base plugins and
remark-stringify with fences and star emphasis, default handlers. -/
def stringifyMdConfig : ProcessorConfig :=
  { plugins := baseProcessorPlugins,
    options := { fences := true, emphasis := '*', inlineCodeHandler := none } }

mutual
/-- Model of remark-stringify on one node: a handlers entry for
inlineCode overrides the default handler, every other kind uses its
default rendering, recursing into children. -/
def renderNode (opts : StringifyOptions) : MdNode → String
  | MdNode.text v => v
  | MdNode.inlineCode v => (opts.inlineCodeHandler.getD defaultInlineCode) v
  | MdNode.codeBlock lang v =>
    if opts.fences then "```" ++ lang ++ "\n" ++ v ++ "\n```" else "    " ++ v
  | MdNode.emphasis cs =>
    String.singleton opts.emphasis ++ renderChildren opts cs ++ String.singleton opts.emphasis
  | MdNode.strong cs =>
    String.singleton opts.emphasis ++ String.singleton opts.emphasis ++ renderChildren opts cs ++ String.singleton opts.emphasis ++ String.singleton opts.emphasis
  | MdNode.paragraph cs => renderChildren opts cs ++ "\n"
/-- Model of remark-stringify on a child list: the concatenation of the
renderings. -/
def renderChildren (opts : StringifyOptions) : MdNodeList → String
  | MdNodeList.nil => ""
  | MdNodeList.cons n ns => renderNode opts n ++ renderChildren opts ns
end

/-- The stringification `annotateCode` performs on a parsed node. -/
def annotateCode (n : MdNode) : String := renderNode annotateCodeConfig.options n

/-- The stringification `stringifyMd` performs on a node. -/
def stringifyMd (n : MdNode) : String := renderNode stringifyMdConfig.options n

mutual
/-- Whether a node contains no inline-code node. -/
def noInlineCode : MdNode → Bool
  | MdNode.text _ => true
  | MdNode.inlineCode _ => false
  | MdNode.codeBlock _ _ => true
  | MdNode.emphasis cs => noInlineCodeList cs
  | MdNode.strong cs => noInlineCodeList cs
  | MdNode.paragraph cs => noInlineCodeList cs
/-- Whether a child list contains no inline-code node. -/
def noInlineCodeList : MdNodeList → Bool
  | MdNodeList.nil => true
  | MdNodeList.cons n ns => noInlineCode n && noInlineCodeList ns
end

/-! Sample concrete data for witnesses and counterexamples. -/

/-- A sample profileUI value. -/
def sampleProfileUI : ProfileUI :=
  { isLocked := false, showAbout := true, showCerts := true, showDonation := true,
    showHeatMap := true, showLocation := true, showName := true, showPoints := true,
    showPortfolio := true, showTimeLine := true }

/-- A sample stored user record. -/
def sampleUser : User :=
  { email := "user@example.com", username := "camper", usernameDisplay := some "Camper",
    about := "", name := "", location := "", picture := "",
    profileUI := sampleProfileUI, theme := "default",
    website := "", twitter := "", githubProfile := "", linkedin := "",
    keyboardShortcuts := false, sendQuincyEmail := false, isHonest := false,
    acceptedPrivacyTerms := false, portfolio := [] }

/-- The three flash type strings. -/
def flashTypes : List String := ["success", "danger", "info"]

/-- Dependencies in which the profanity check flags exactly the word
grawlix and everything else is permissive. -/
def c9Deps : UsernameDeps :=
  { isProfane := fun s => s = "grawlix",
    blocklistedUsernames := [],
    isValidUsername := fun _ => { valid := true, error := "" },
    countUsername := fun _ => 0 }

/-- A stored user whose current username is the flagged word itself. -/
def c9User : User :=
  { sampleUser with username := "grawlix", usernameDisplay := some "grawlix" }

/-- Dependencies in which the profanity check flags exactly the word
badname and everything else is permissive. -/
def c9WitnessDeps : UsernameDeps :=
  { isProfane := fun s => s = "badname",
    blocklistedUsernames := [],
    isValidUsername := fun _ => { valid := true, error := "" },
    countUsername := fun _ => 0 }

/-- A concrete locale environment: every file present, one LangNames key
and one LangCodes key differing from the language only in case. -/
def c6Env : LocaleEnv :=
  { fileOnDisk := fun _ _ => true,
    langNamesKeys := ["English"],
    langCodesKeys := ["ENGLISH"] }


/-- C8: `isPictureWithProtocol` accepts exactly the pictures that parse
as a URL whose protocol is http or https; and on every request whose
picture is absent, empty, unparseable or of another protocol, a
successful PUT /update-my-about still writes about, name and location
but leaves the stored picture unchanged. -/
theorem c8_picture_protocol (p : Option String) (body : AboutBody) (user : User) :
    (isPictureWithProtocol p = true ↔
      (∃ s url, p = some s ∧ parseURL s = some url ∧
        (url.protocol = "http:" ∨ url.protocol = "https:"))) ∧
    (isPictureWithProtocol body.picture = false →
      (updateMyAbout body user false).user.picture = user.picture ∧
      (updateMyAbout body user false).user.about = body.about ∧
      (updateMyAbout body user false).user.name = body.name ∧
      (updateMyAbout body user false).user.location = body.location ∧
      (updateMyAbout body user false).message = "flash.updated-about-me") := by
  constructor
  · constructor
    · intro h
      match p with
      | none => simp [isPictureWithProtocol] at h
      | some s =>
        simp only [isPictureWithProtocol] at h
        by_cases hs : s = ""
        · simp [hs] at h
        · rw [if_neg hs] at h
          match hu : parseURL s with
          | none => rw [hu] at h; simp at h
          | some url =>
            rw [hu] at h
            simp only [Bool.or_eq_true, decide_eq_true_eq] at h
            exact ⟨s, url, rfl, hu, h⟩
    · rintro ⟨s, url, hp, hu, hproto⟩
      subst hp
      have hs : s ≠ "" := by
        intro he
        subst he
        simp [parseURL, splitAtColon] at hu
      simp only [isPictureWithProtocol, if_neg hs, hu]
      simp only [Bool.or_eq_true, decide_eq_true_eq]
      exact hproto
  · intro hfalse
    simp [updateMyAbout, hfalse]

/-- C8 witness: an ftp picture URL is rejected and a request carrying it
leaves the stored picture unchanged while still updating the about
field. -/
theorem c8_picture_protocol_witness :
    isPictureWithProtocol (some "ftp://example.com/a.png") = false ∧
    (updateMyAbout { about := "hi", name := "n", location := "l", picture := some "ftp://example.com/a.png" } sampleUser false).user.picture = sampleUser.picture ∧
    (updateMyAbout { about := "hi", name := "n", location := "l", picture := some "ftp://example.com/a.png" } sampleUser false).user.about = "hi" := by
  have h := (c8_picture_protocol (some "ftp://example.com/a.png")
    { about := "hi", name := "n", location := "l", picture := some "ftp://example.com/a.png" }
    sampleUser).2 (by decide)
  exact ⟨by decide, h.1, h.2.1⟩

end FCC

namespace FCC

/-- C2: updateErrorHandler answers a validation failure with 400 and
exactly the wrong-updating danger flash and delegates every other error;
and in every settings handler a thrown ORM update error is caught,
logged, and answered with 500 and exactly the wrong-updating danger
flash, the stored record unchanged. -/
theorem c2_update_error_handling :
    updateErrorHandler true = some (400, "flash.wrong-updating", "danger") ∧
    updateErrorHandler false = none ∧
    (∀ body user, updateMyProfileUI body user true =
      { status := 500, message := "flash.wrong-updating", type := "danger",
        user := user, ops := [OrmOp.update], logged := true }) ∧
    (∀ t user, updateMyTheme t user true = catchBranch user [OrmOp.update]) ∧
    (∀ body user, updateMySocials body user true = catchBranch user [OrmOp.update]) ∧
    (∀ b user, updateMyKeyboardShortcuts b user true = catchBranch user [OrmOp.update]) ∧
    (∀ b user, updateMyQuincyEmail b user true = catchBranch user [OrmOp.update]) ∧
    (∀ b user, updateMyHonesty b user true = catchBranch user [OrmOp.update]) ∧
    (∀ b user, updatePrivacyTerms b user true = catchBranch user [OrmOp.update]) ∧
    (∀ body user, updateMyPortfolio body user true = catchBranch user [OrmOp.update]) ∧
    (∀ body user, updateMyAbout body user true = catchBranch user [OrmOp.update]) ∧
    (∀ ve e user lp fmt,
      ((updateMyEmail ve e user lp fmt true).status = 500 ∧
       (updateMyEmail ve e user lp fmt true).message = "flash.wrong-updating" ∧
       (updateMyEmail ve e user lp fmt true).type = "danger" ∧
       (updateMyEmail ve e user lp fmt true).logged = true ∧
       (updateMyEmail ve e user lp fmt true).user = user) ∨
      OrmOp.update ∉ (updateMyEmail ve e user lp fmt true).ops) ∧
    (∀ deps ve b user,
      ((updateMyUsername deps ve b user true).status = 500 ∧
       (updateMyUsername deps ve b user true).message = "flash.wrong-updating" ∧
       (updateMyUsername deps ve b user true).type = "danger" ∧
       (updateMyUsername deps ve b user true).logged = true ∧
       (updateMyUsername deps ve b user true).user = user) ∨
      OrmOp.update ∉ (updateMyUsername deps ve b user true).ops) := by
  refine ⟨rfl, rfl, fun body user => rfl, fun t user => rfl, fun body user => rfl,
    fun b user => rfl, fun b user => rfl, fun b user => rfl, fun b user => rfl,
    fun body user => rfl, fun body user => rfl, ?_, ?_⟩
  · intro ve e user lp fmt
    simp only [updateMyEmail]
    repeat' split
    all_goals simp_all [catchBranch]
  · intro deps ve b user
    simp only [updateMyUsername]
    repeat' split
    all_goals simp_all [catchBranch]

/-- C1 counterexample: the duplicate-email branch of PUT /update-my-email
interpolates the submitted email into the response message, so the
message is not drawn from a fixed finite set of translation lookup keys:
at a concrete request it is not among the literal keys of the routes, and
two requests differing only in the submitted email get different
messages. -/
theorem c1_counterexample :
    (updateMyEmail false "USER@EXAMPLE.COM" sampleUser true "" false).message =
      "user@example.com is already associated with this account.\nYou can update a new email address instead." ∧
    (updateMyEmail false "USER@EXAMPLE.COM" sampleUser true "" false).message ∉ fixedMessageKeys ∧
    (updateMyEmail false "OTHER@EXAMPLE.COM"
        { sampleUser with email := "other@example.com" } true "" false).message ≠
      (updateMyEmail false "USER@EXAMPLE.COM" sampleUser true "" false).message := by
  refine ⟨rfl, by decide, by decide⟩

/-- C1 amended: the profileui, theme, socials, keyboard-shortcuts,
quincy-email, honesty, privacy-terms, portfolio and about endpoints
always answer with a message drawn from the fixed set of translation
keys; update-my-email additionally builds messages from request data (or
a fixed English literal) on its validation-failure, duplicate-email and
rate-limit paths, and update-my-username does so on its schema-validation
and invalid-username paths. -/
theorem c1_amended_fixed_messages :
    (∀ body user f, (updateMyProfileUI body user f).message ∈ fixedMessageKeys) ∧
    (∀ t user f, (updateMyTheme t user f).message ∈ fixedMessageKeys) ∧
    (∀ body user f, (updateMySocials body user f).message ∈ fixedMessageKeys) ∧
    (∀ b user f, (updateMyKeyboardShortcuts b user f).message ∈ fixedMessageKeys) ∧
    (∀ b user f, (updateMyQuincyEmail b user f).message ∈ fixedMessageKeys) ∧
    (∀ b user f, (updateMyHonesty b user f).message ∈ fixedMessageKeys) ∧
    (∀ b user f, (updatePrivacyTerms b user f).message ∈ fixedMessageKeys) ∧
    (∀ body user f, (updateMyPortfolio body user f).message ∈ fixedMessageKeys) ∧
    (∀ body user f, (updateMyAbout body user f).message ∈ fixedMessageKeys) ∧
    (∀ ve e user lp fmt f,
      (updateMyEmail ve e user lp fmt f).message ∈ fixedMessageKeys ∨
      ve = true ∨ jsToLower e = jsToLower user.email ∨ lp = false) ∧
    (∀ deps ve b user f,
      (updateMyUsername deps ve b user f).message ∈ fixedMessageKeys ∨
      ve ≠ none ∨ (deps.isValidUsername (jsToLower (jsTrim b))).valid = false) := by
  refine ⟨?_, ?_, ?_, ?_, ?_, ?_, ?_, ?_, ?_, ?_, ?_⟩ <;> intros <;>
    simp only [updateMyProfileUI, updateMyTheme, updateMySocials,
      updateMyKeyboardShortcuts, updateMyQuincyEmail, updateMyHonesty,
      updatePrivacyTerms, updateMyPortfolio, updateMyAbout, updateMyEmail,
      updateMyUsername] <;>
    (repeat' split) <;> simp_all [catchBranch, fixedMessageKeys]

/-- C3 counterexample: the PUT /update-my-email handler on a plain
successful request issues two ORM calls, a `findUniqueOrThrow` read
followed by the `update`, not a single `update`. -/
theorem c3_counterexample :
    (updateMyEmail false "new@example.com" sampleUser true "" false).ops ≠
      [OrmOp.update] ∧
    (updateMyEmail false "new@example.com" sampleUser true "" false).ops =
      [OrmOp.read, OrmOp.update] := by
  refine ⟨by decide, rfl⟩

/-- C3 amended: each of the nine plain update endpoints issues exactly
one ORM call, a single update; update-my-email first reads the stored
email (its trace is a read possibly followed by the update, or empty on
validation failure), and update-my-username first reads the user record
and possibly counts holders of the requested username before updating. -/
theorem c3_amended_orm_traces :
    (∀ body user f, (updateMyProfileUI body user f).ops = [OrmOp.update]) ∧
    (∀ t user f, (updateMyTheme t user f).ops = [OrmOp.update]) ∧
    (∀ body user f, (updateMySocials body user f).ops = [OrmOp.update]) ∧
    (∀ b user f, (updateMyKeyboardShortcuts b user f).ops = [OrmOp.update]) ∧
    (∀ b user f, (updateMyQuincyEmail b user f).ops = [OrmOp.update]) ∧
    (∀ b user f, (updateMyHonesty b user f).ops = [OrmOp.update]) ∧
    (∀ b user f, (updatePrivacyTerms b user f).ops = [OrmOp.update]) ∧
    (∀ body user f, (updateMyPortfolio body user f).ops = [OrmOp.update]) ∧
    (∀ body user f, (updateMyAbout body user f).ops = [OrmOp.update]) ∧
    (∀ ve e user lp fmt f,
      (updateMyEmail ve e user lp fmt f).ops = [] ∨
      (updateMyEmail ve e user lp fmt f).ops = [OrmOp.read] ∨
      (updateMyEmail ve e user lp fmt f).ops = [OrmOp.read, OrmOp.update]) ∧
    (∀ deps ve b user f,
      (updateMyUsername deps ve b user f).ops = [OrmOp.read] ∨
      (updateMyUsername deps ve b user f).ops = [OrmOp.read, OrmOp.count] ∨
      (updateMyUsername deps ve b user f).ops = [OrmOp.read, OrmOp.update] ∨
      (updateMyUsername deps ve b user f).ops = [OrmOp.read, OrmOp.count, OrmOp.update]) := by
  refine ⟨?_, ?_, ?_, ?_, ?_, ?_, ?_, ?_, ?_, ?_, ?_⟩ <;> intros <;>
    simp only [updateMyProfileUI, updateMyTheme, updateMySocials,
      updateMyKeyboardShortcuts, updateMyQuincyEmail, updateMyHonesty,
      updatePrivacyTerms, updateMyPortfolio, updateMyAbout, updateMyEmail,
      updateMyUsername] <;>
    (repeat' split) <;> simp_all [catchBranch]

/-- C4: a successful PUT /update-my-profileui writes exactly the ten
boolean visibility flags from the request body, leaves every other field
of the user record unchanged, and returns the privacy-updated success
flash. -/
theorem c4_profileui_frame (body : ProfileUI) (user : User) :
    (updateMyProfileUI body user false).status = 200 ∧
    (updateMyProfileUI body user false).message = "flash.privacy-updated" ∧
    (updateMyProfileUI body user false).type = "success" ∧
    (updateMyProfileUI body user false).user.profileUI = body ∧
    (updateMyProfileUI body user false).user.email = user.email ∧
    (updateMyProfileUI body user false).user.username = user.username ∧
    (updateMyProfileUI body user false).user.usernameDisplay = user.usernameDisplay ∧
    (updateMyProfileUI body user false).user.about = user.about ∧
    (updateMyProfileUI body user false).user.name = user.name ∧
    (updateMyProfileUI body user false).user.location = user.location ∧
    (updateMyProfileUI body user false).user.picture = user.picture ∧
    (updateMyProfileUI body user false).user.theme = user.theme ∧
    (updateMyProfileUI body user false).user.website = user.website ∧
    (updateMyProfileUI body user false).user.twitter = user.twitter ∧
    (updateMyProfileUI body user false).user.githubProfile = user.githubProfile ∧
    (updateMyProfileUI body user false).user.linkedin = user.linkedin ∧
    (updateMyProfileUI body user false).user.keyboardShortcuts = user.keyboardShortcuts ∧
    (updateMyProfileUI body user false).user.sendQuincyEmail = user.sendQuincyEmail ∧
    (updateMyProfileUI body user false).user.isHonest = user.isHonest ∧
    (updateMyProfileUI body user false).user.acceptedPrivacyTerms = user.acceptedPrivacyTerms ∧
    (updateMyProfileUI body user false).user.portfolio = user.portfolio :=
  ⟨rfl, rfl, rfl, rfl, rfl, rfl, rfl, rfl, rfl, rfl, rfl, rfl, rfl, rfl, rfl, rfl,
   rfl, rfl, rfl, rfl, rfl⟩

/-- Every response produced inside a settings handler body (success,
business-rule rejection, in-handler validation answer, caught ORM error)
carries a `type` that is one of success, danger or info.  Validation
failures of routes without `updateErrorHandler` or `attachValidation`
are answered by the application-level error handler, which lies outside
these sources and is not modelled. -/
theorem handlerBody_flash_type_invariant :
    (∀ body user f, (updateMyProfileUI body user f).type ∈ flashTypes) ∧
    (∀ t user f, (updateMyTheme t user f).type ∈ flashTypes) ∧
    (∀ body user f, (updateMySocials body user f).type ∈ flashTypes) ∧
    (∀ b user f, (updateMyKeyboardShortcuts b user f).type ∈ flashTypes) ∧
    (∀ b user f, (updateMyQuincyEmail b user f).type ∈ flashTypes) ∧
    (∀ b user f, (updateMyHonesty b user f).type ∈ flashTypes) ∧
    (∀ b user f, (updatePrivacyTerms b user f).type ∈ flashTypes) ∧
    (∀ body user f, (updateMyPortfolio body user f).type ∈ flashTypes) ∧
    (∀ body user f, (updateMyAbout body user f).type ∈ flashTypes) ∧
    (∀ ve e user lp fmt f, (updateMyEmail ve e user lp fmt f).type ∈ flashTypes) ∧
    (∀ deps ve b user f, (updateMyUsername deps ve b user f).type ∈ flashTypes) := by
  refine ⟨?_, ?_, ?_, ?_, ?_, ?_, ?_, ?_, ?_, ?_, ?_⟩ <;> intros <;>
    simp only [updateMyProfileUI, updateMyTheme, updateMySocials,
      updateMyKeyboardShortcuts, updateMyQuincyEmail, updateMyHonesty,
      updatePrivacyTerms, updateMyPortfolio, updateMyAbout, updateMyEmail,
      updateMyUsername] <;>
    (repeat' split) <;> simp [catchBranch, flashTypes]

/-- C9 counterexample: when the submitted username equals the stored one
and is profane, the handler answers through the earlier unchanged-branch
with the username-used flash, not the username-taken flash the claim
prescribes for every profane submission. -/
theorem c9_counterexample :
    c9Deps.isProfane (jsToLower (jsTrim "grawlix")) = true ∧
    (updateMyUsername c9Deps none "grawlix" c9User false).status = 400 ∧
    (updateMyUsername c9Deps none "grawlix" c9User false).message = "flash.username-used" ∧
    (updateMyUsername c9Deps none "grawlix" c9User false).message ≠ "flash.username-taken" ∧
    (updateMyUsername c9Deps none "grawlix" c9User false).user = c9User := by
  decide

/-- C9 amended: a profane, blocklisted or otherwise-taken username is
never persisted (the record is unchanged and no update is issued); when
additionally no earlier branch fires (the username is not unchanged, no
schema validation error, and it passes isValidUsername) the answer is
400 with the username-taken info flash; and whenever the record does
change, the persisted username is the lowercased trimmed submission and
the display name the trimmed submission. -/
theorem c9_username_amended (deps : UsernameDeps) (ve : Option String)
    (b : String) (user : User) (f : Bool) :
    ((deps.isProfane (jsToLower (jsTrim b)) = true ∨
      jsToLower (jsTrim b) ∈ deps.blocklistedUsernames ∨
      (jsToLower (jsTrim b) ≠ jsToLower user.username ∧
        deps.countUsername (jsToLower (jsTrim b)) ≠ 0)) →
      (updateMyUsername deps ve b user f).user = user ∧
      OrmOp.update ∉ (updateMyUsername deps ve b user f).ops) ∧
    ((deps.isProfane (jsToLower (jsTrim b)) = true ∨
      jsToLower (jsTrim b) ∈ deps.blocklistedUsernames ∨
      (jsToLower (jsTrim b) ≠ jsToLower user.username ∧
        deps.countUsername (jsToLower (jsTrim b)) ≠ 0)) →
      ¬(jsToLower (jsTrim b) = jsToLower user.username ∧
        some (jsTrim b) = user.usernameDisplay.map jsTrim) →
      ve = none →
      (deps.isValidUsername (jsToLower (jsTrim b))).valid = true →
      (updateMyUsername deps ve b user f).status = 400 ∧
      (updateMyUsername deps ve b user f).message = "flash.username-taken" ∧
      (updateMyUsername deps ve b user f).type = "info" ∧
      (updateMyUsername deps ve b user f).user = user) ∧
    ((updateMyUsername deps ve b user f).user = user ∨
      ((updateMyUsername deps ve b user f).user.username = jsToLower (jsTrim b) ∧
       (updateMyUsername deps ve b user f).user.usernameDisplay = some (jsTrim b))) := by
  refine ⟨?_, ?_, ?_⟩
  · intro hbad
    simp only [updateMyUsername]
    repeat' split
    all_goals simp_all
  · intro hbad hunch hve hvalid
    subst hve
    simp only [updateMyUsername]
    repeat' split
    all_goals simp_all
  · simp only [updateMyUsername]
    repeat' split
    all_goals simp_all [catchBranch]

/-- C9 witness: a fresh profane username is rejected with the
username-taken info flash and the record stays unchanged. -/
theorem c9_username_amended_witness :
    (updateMyUsername c9WitnessDeps none "badname" sampleUser false).status = 400 ∧
    (updateMyUsername c9WitnessDeps none "badname" sampleUser false).message = "flash.username-taken" ∧
    (updateMyUsername c9WitnessDeps none "badname" sampleUser false).user = sampleUser := by
  have h := (c9_username_amended c9WitnessDeps none "badname" sampleUser false).2.1
    (Or.inl (by decide)) (by decide) rfl (by decide)
  exact ⟨h.1, h.2.1, h.2.2.2⟩

/-- C10: PUT /update-my-email compares the submitted and stored emails
lowercased; on a match it answers 400 with an info flash and neither
changes the record nor issues an update, and on a successful update it
stores the lowercased submitted email. -/
theorem c10_email_case_handling (e : String) (user : User) (lp : Bool)
    (fmt : String) (f : Bool) :
    (jsToLower e = jsToLower user.email →
      (updateMyEmail false e user lp fmt f).status = 400 ∧
      (updateMyEmail false e user lp fmt f).type = "info" ∧
      (updateMyEmail false e user lp fmt f).user = user ∧
      OrmOp.update ∉ (updateMyEmail false e user lp fmt f).ops) ∧
    (jsToLower e ≠ jsToLower user.email →
      (updateMyEmail false e user true fmt false).status = 200 ∧
      (updateMyEmail false e user true fmt false).message = "flash.email-valid" ∧
      (updateMyEmail false e user true fmt false).type = "success" ∧
      (updateMyEmail false e user true fmt false).user.email = jsToLower e) := by
  constructor
  · intro hsame
    simp [updateMyEmail, hsame]
  · intro hdiff
    simp [updateMyEmail, hdiff]

/-- C10 witness: a same-modulo-case email is answered with 400 and no
change, and a fresh email is stored lowercased. -/
theorem c10_email_witness :
    (updateMyEmail false "USER@EXAMPLE.COM" sampleUser true "" false).status = 400 ∧
    (updateMyEmail false "New@Example.com" sampleUser true "" false).user.email = "new@example.com" := by
  refine ⟨((c10_email_case_handling "USER@EXAMPLE.COM" sampleUser true "" false).1 (by decide)).1, ?_⟩
  have h := ((c10_email_case_handling "New@Example.com" sampleUser true "" false).2 (by decide)).2.2.2
  exact h.trans (by decide)

mutual
/-- Rendering is unchanged between two option records agreeing on fences
and emphasis, on any node free of inline code. -/
theorem renderNode_congr (o1 o2 : StringifyOptions) (hf : o1.fences = o2.fences)
    (he : o1.emphasis = o2.emphasis) :
    (n : MdNode) → noInlineCode n = true → renderNode o1 n = renderNode o2 n
  | MdNode.text _, _ => rfl
  | MdNode.inlineCode _, h => by simp [noInlineCode] at h
  | MdNode.codeBlock _ _, _ => by simp only [renderNode, hf]
  | MdNode.emphasis cs, h => by
    have hc := renderChildren_congr o1 o2 hf he cs (by simpa [noInlineCode] using h)
    simp only [renderNode, hc, he]
  | MdNode.strong cs, h => by
    have hc := renderChildren_congr o1 o2 hf he cs (by simpa [noInlineCode] using h)
    simp only [renderNode, hc, he]
  | MdNode.paragraph cs, h => by
    have hc := renderChildren_congr o1 o2 hf he cs (by simpa [noInlineCode] using h)
    simp only [renderNode, hc]

/-- List version of `renderNode_congr`. -/
theorem renderChildren_congr (o1 o2 : StringifyOptions) (hf : o1.fences = o2.fences)
    (he : o1.emphasis = o2.emphasis) :
    (ns : MdNodeList) → noInlineCodeList ns = true →
      renderChildren o1 ns = renderChildren o2 ns
  | MdNodeList.nil, _ => rfl
  | MdNodeList.cons n ns, h => by
    have h12 : noInlineCode n = true ∧ noInlineCodeList ns = true := by
      simpa [noInlineCodeList, Bool.and_eq_true] using h
    simp only [renderChildren, renderNode_congr o1 o2 hf he n h12.1,
      renderChildren_congr o1 o2 hf he ns h12.2]
end

/-- C7: annotateCode and stringifyMd share the parser plugin chain and
the fences and emphasis stringify settings; they differ only in the
custom inlineCode handler, so an inline-code node renders under
annotateCode as the default rendering wrapped in the notranslate tags,
and every node free of inline code renders identically under both. -/
theorem c7_annotate_vs_stringify :
    annotateCodeConfig.plugins = stringifyMdConfig.plugins ∧
    annotateCodeConfig.options.fences = stringifyMdConfig.options.fences ∧
    annotateCodeConfig.options.emphasis = stringifyMdConfig.options.emphasis ∧
    annotateCodeConfig.options.inlineCodeHandler = some wrapInlineCode ∧
    stringifyMdConfig.options.inlineCodeHandler = none ∧
    (∀ v, annotateCode (MdNode.inlineCode v) =
      notranslateStart ++ stringifyMd (MdNode.inlineCode v) ++ notranslateEnd) ∧
    (∀ n, noInlineCode n = true → annotateCode n = stringifyMd n) := by
  refine ⟨rfl, rfl, rfl, rfl, rfl, fun v => rfl, fun n h => ?_⟩
  exact renderNode_congr annotateCodeConfig.options stringifyMdConfig.options rfl rfl n h

/-- C7 witness: a plain text node renders identically under both
processors, and an inline-code node gets the notranslate wrapping. -/
theorem c7_annotate_vs_stringify_witness :
    annotateCode (MdNode.text "hello") = stringifyMd (MdNode.text "hello") :=
  c7_annotate_vs_stringify.2.2.2.2.2.2 (MdNode.text "hello") rfl

/-- C6: for every client language the locale suite generates exactly the
five file-existence checks and the two enum-entry checks, every one of
them is part of the whole suite, and (for a lowercase language string)
the enum checks pass exactly when some enum key equals the language
case-insensitively. -/
theorem c6_locale_suite (clientLangs : List String) (lang : String) (env : LocaleEnv)
    (hmem : lang ∈ clientLangs) (hlower : jsToLower lang = lang) :
    localeChecksFor lang =
      [LocaleCheck.fileExists lang "translations.json",
       LocaleCheck.fileExists lang "motivation.json",
       LocaleCheck.fileExists lang "intro.json",
       LocaleCheck.fileExists lang "meta-tags.json",
       LocaleCheck.fileExists lang "links.json",
       LocaleCheck.inLangNames lang, LocaleCheck.inLangCodes lang] ∧
    (∀ c, c ∈ localeChecksFor lang → c ∈ localeSuite clientLangs) ∧
    (runLocaleCheck env (LocaleCheck.inLangNames lang) = true ↔
      ∃ k, k ∈ env.langNamesKeys ∧ jsToLower k = jsToLower lang) ∧
    (runLocaleCheck env (LocaleCheck.inLangCodes lang) = true ↔
      ∃ k, k ∈ env.langCodesKeys ∧ jsToLower k = jsToLower lang) := by
  refine ⟨rfl, ?_, ?_, ?_⟩
  · intro c hc
    simp only [localeSuite, List.mem_flatMap]
    exact ⟨lang, hmem, hc⟩
  · simp [runLocaleCheck, hlower, eq_comm]
  · simp [runLocaleCheck, hlower, eq_comm]

/-- C6 witness: for the language english with enum key English the suite
generates the seven checks and the LangNames check passes. -/
theorem c6_locale_suite_witness :
    localeChecksFor "english" =
      [LocaleCheck.fileExists "english" "translations.json",
       LocaleCheck.fileExists "english" "motivation.json",
       LocaleCheck.fileExists "english" "intro.json",
       LocaleCheck.fileExists "english" "meta-tags.json",
       LocaleCheck.fileExists "english" "links.json",
       LocaleCheck.inLangNames "english", LocaleCheck.inLangCodes "english"] ∧
    (runLocaleCheck c6Env (LocaleCheck.inLangNames "english") = true ↔
      ∃ k, k ∈ c6Env.langNamesKeys ∧ jsToLower k = jsToLower "english") := by
  have h := c6_locale_suite ["english"] "english" c6Env (by decide) (by decide)
  exact ⟨h.1, h.2.2.1⟩

end FCC
